import Mathlib

/-
Verification of the order-processing backend in src/server.js against its
specification. The data model and the operations are shallowly embedded:
the SQLite orders table becomes a list of rows, each request handler becomes
a pure function from an environment (configuration and external-call
outcomes) and a store state to a result, a new store state, and a record of
the side effects (supplier dispatches, customer email sends) it performed.
-/

namespace Dropship

/-- A cart line item, as read from the request body or from the stored
items_json snapshot (src/server.js, cart items carry title, price in minor
units, supplierCost in minor units, quantity). -/
structure CartItem where
  title : String
  price : Int
  supplierCost : Int
  quantity : Int
deriving Repr, DecidableEq

/-- Customer info from the request body: name, optional email, and an
address kept opaque (the code stores it JSON-stringified). -/
structure Customer where
  name : String
  email : Option String
  address : String
deriving Repr, DecidableEq

/-- Result of placeOrderWithSupplier (src/server.js:224-261): a success
flag, the method used (dsers or email), an optional note, and an optional
error message. -/
structure SupplierResponse where
  success : Bool
  method : Option String
  note : Option String
  error : Option String
deriving Repr, DecidableEq

/-- One row of the orders table (src/server.js:23-40). Field names follow
the column names. supplier_response is the parsed JSON value or NULL;
processed_at is NULL until the terminal update. -/
structure OrderRow where
  local_order_id : String
  payment_intent_id : String
  status : String
  customer_name : String
  customer_email : Option String
  customer_address : String
  items_json : List CartItem
  total_cents : Int
  supplier_share_cents : Int
  profit_cents : Int
  supplier_response : Option SupplierResponse
  processed_at : Option Nat
deriving Repr, DecidableEq

/-- The orders table: a list of rows, in insertion order. -/
abbrev DB := List OrderRow

/-- SELECT * FROM orders WHERE payment_intent_id=? (first match, as SQLite
db.get returns). -/
def dbGetByPaymentIntentId (db : DB) (paymentIntentId : String) : Option OrderRow :=
  db.find? (fun r => r.payment_intent_id == paymentIntentId)

/-- SELECT * FROM orders WHERE local_order_id=? (first match). -/
def dbGetByLocalOrderId (db : DB) (localOrderId : String) : Option OrderRow :=
  db.find? (fun r => r.local_order_id == localOrderId)

/-- The row written by the INSERT in createDraftOrder (src/server.js:335-340):
status pending, supplier_response and processed_at NULL (absent from the
column list). -/
def draftOrderRow (paymentIntentId : String) (cartItems : List CartItem)
    (customer : Customer) (total supplierTotal profit : Int)
    (local_order_id : String) : OrderRow :=
  { local_order_id := local_order_id
    payment_intent_id := paymentIntentId
    status := "pending"
    customer_name := customer.name
    customer_email := customer.email
    customer_address := customer.address
    items_json := cartItems
    total_cents := total
    supplier_share_cents := supplierTotal
    profit_cents := profit
    supplier_response := none
    processed_at := none }

/-- Embeds createDraftOrder (src/server.js:333-342). The source runs a plain
INSERT INTO orders; the UNIQUE constraint on payment_intent_id
(src/server.js:27) makes the statement fail with a constraint error when a
row with the same payment id already exists, so the embedding returns an
error in that case and otherwise appends the new row and returns the fresh
local_order_id. -/
def createDraftOrder (db : DB) (paymentIntentId : String) (cartItems : List CartItem)
    (customer : Customer) (total supplierTotal profit : Int)
    (local_order_id : String) : Except String (String × DB) :=
  if (dbGetByPaymentIntentId db paymentIntentId).isSome then
    .error "SQLITE_CONSTRAINT: UNIQUE constraint failed: orders.payment_intent_id"
  else
    .ok (local_order_id,
      db ++ [draftOrderRow paymentIntentId cartItems customer total supplierTotal profit local_order_id])

/-- Embeds the terminal UPDATE used by both the place-order handler
(src/server.js:171-172) and the webhook handler (src/server.js:214-215):
UPDATE orders SET supplier_response=?, status=?, processed_at=datetime(now)
WHERE payment_intent_id=?. One SQL statement writes the three columns, so
the embedding updates them in a single step on every matching row. -/
def terminalUpdateRow (paymentIntentId : String) (resp : SupplierResponse)
    (now : Nat) (r : OrderRow) : OrderRow :=
  if r.payment_intent_id == paymentIntentId then
    { r with
      supplier_response := some resp
      status := if resp.success then "processed" else "failed"
      processed_at := some now }
  else r

/-- The terminal UPDATE applied to the whole table: every row matching the
WHERE clause is rewritten by terminalUpdateRow in the one statement. -/
def updateOrderTerminal (db : DB) (paymentIntentId : String)
    (resp : SupplierResponse) (now : Nat) : DB :=
  db.map (terminalUpdateRow paymentIntentId resp now)

/-- Configuration and the outcomes of the external calls a request may make:
the two supplier config variables (src/server.js:66-68), the result of the
axios POST to the DSers API, the result of the sendMail to the supplier,
the result of the sendMail to the customer, and the status Stripe reports
for a payment intent id. -/
structure Env where
  DSERS_API_KEY : Option String
  SUPPLIER_EMAIL : Option String
  dsersCall : Except String Unit
  supplierMailCall : Except String Unit
  customerMailCall : Except String Unit
  stripeRetrieveStatus : String → String

/-- The supplier-email fallback branch of placeOrderWithSupplier
(src/server.js:247-260): if SUPPLIER_EMAIL is configured, try the mail and
report success or the caught error; otherwise report that nothing is
configured. -/
def supplierEmailBranch (env : Env) : SupplierResponse :=
  match env.SUPPLIER_EMAIL with
  | some _ =>
    match env.supplierMailCall with
    | .ok _ => { success := true, method := some "email", note := some "sent to supplier email", error := none }
    | .error e => { success := false, method := none, note := none, error := some e }
  | none =>
    { success := false, method := none, note := none,
      error := some "No DSERS_API_KEY or SUPPLIER_EMAIL configured" }

/-- Embeds placeOrderWithSupplier (src/server.js:224-261): with a DSers API
key, try the API and on a caught error fall through to the email branch;
without a key, go straight to the email branch. The function never throws:
every external failure is caught and turned into a return value. -/
def placeOrderWithSupplier (env : Env) : SupplierResponse :=
  match env.DSERS_API_KEY with
  | some _ =>
    match env.dsersCall with
    | .ok _ => { success := true, method := some "dsers", note := none, error := none }
    | .error _ => supplierEmailBranch env
  | none => supplierEmailBranch env

/-- Number of external systems placeOrderWithSupplier contacts in one
invocation: the DSers API when a key is configured, plus the supplier
mailbox when the email branch is reached and SUPPLIER_EMAIL is set. -/
def supplierExternalContacts (env : Env) : Nat :=
  let emailContact := if env.SUPPLIER_EMAIL.isSome then 1 else 0
  match env.DSERS_API_KEY with
  | some _ =>
    match env.dsersCall with
    | .ok _ => 1
    | .error _ => 1 + emailContact
  | none => emailContact

/-- Embeds sendCustomerEmail (src/server.js:265-294): returns false without
sending when the customer has no email; otherwise attempts the send and
returns true on success, false on a caught error. -/
def sendCustomerEmail (env : Env) (customer : Customer) : Bool :=
  match customer.email with
  | none => false
  | some _ =>
    match env.customerMailCall with
    | .ok _ => true
    | .error _ => false

/-- Number of sendMail attempts sendCustomerEmail makes: one when the
customer has an email address, zero otherwise. -/
def customerEmailAttempts (customer : Customer) : Nat :=
  if customer.email.isSome then 1 else 0

/-- Side effects a handler run performed: how many times it invoked
placeOrderWithSupplier and how many customer-email sends it attempted. -/
structure Effects where
  supplierDispatchCalls : Nat
  customerEmailSends : Nat
deriving Repr, DecidableEq

/-- Result of POST /api/place-order: a 4xx/5xx error JSON, the
already-processed short-circuit (src/server.js:166), or a fresh placement
(src/server.js:174). -/
inductive PlaceOrderResult where
  | httpError (status : Nat) (message : String)
  | alreadyProcessed (supplierResponse : SupplierResponse)
  | placed (supplierResponse : SupplierResponse)
deriving Repr, DecidableEq

/-- Total over the cart, Σ price·quantity, as the reduce at
src/server.js:160 and the loop at src/server.js:119-124 compute it. -/
def cartTotal (cartItems : List CartItem) : Int :=
  cartItems.foldl (fun s it => s + it.price * it.quantity) 0

/-- Supplier share over the cart, Σ supplierCost·quantity
(src/server.js:161 and src/server.js:119-124). -/
def cartSupplierTotal (cartItems : List CartItem) : Int :=
  cartItems.foldl (fun s it => s + it.supplierCost * it.quantity) 0

/-- The dispatch-and-persist tail of the place-order handler
(src/server.js:166-174), entered with the row read for this payment id: if
supplier_response is already set, short-circuit with the stored result and
no side effects; otherwise call the supplier, attempt the customer email,
and run the terminal UPDATE. -/
def placeOrderCore (env : Env) (db : DB) (customer : Customer)
    (paymentIntentId : String) (saved : OrderRow) (now : Nat) :
    PlaceOrderResult × DB × Effects :=
  match saved.supplier_response with
  | some stored => (.alreadyProcessed stored, db, ⟨0, 0⟩)
  | none =>
    let supplierResponse := placeOrderWithSupplier env
    (.placed supplierResponse,
     updateOrderTerminal db paymentIntentId supplierResponse now,
     ⟨1, customerEmailAttempts customer⟩)

/-- Embeds POST /api/place-order (src/server.js:150-176). Verify with
Stripe that the intent status is succeeded, else 400. Read the row for the
payment id; if absent, backfill a draft from the request cart
(src/server.js:159-164) and re-read it by local_order_id; then run
placeOrderCore. A failed backfill INSERT is caught by the handler and
becomes a 500. -/
def placeOrder (env : Env) (db : DB) (cartItems : List CartItem)
    (customer : Customer) (paymentIntentId : String) (freshLocalId : String)
    (now : Nat) : PlaceOrderResult × DB × Effects :=
  if env.stripeRetrieveStatus paymentIntentId = "succeeded" then
    match dbGetByPaymentIntentId db paymentIntentId with
    | some saved => placeOrderCore env db customer paymentIntentId saved now
    | none =>
      let total := cartTotal cartItems
      let supplierTotal := cartSupplierTotal cartItems
      match createDraftOrder db paymentIntentId cartItems customer total
          supplierTotal (total - supplierTotal) freshLocalId with
      | .error e => (.httpError 500 e, db, ⟨0, 0⟩)
      | .ok (lid, db1) =>
        match dbGetByLocalOrderId db1 lid with
        | none => (.httpError 500 "TypeError: Cannot read properties of undefined", db1, ⟨0, 0⟩)
        | some saved => placeOrderCore env db1 customer paymentIntentId saved now
  else (.httpError 400 "Payment not succeeded", db, ⟨0, 0⟩)

/-- A Stripe event as handleStripeEvent dispatches on it: a
payment_intent.succeeded carrying the intent id, or any other event type. -/
inductive StripeEvent where
  | paymentIntentSucceeded (id : String)
  | otherEvent (type : String)
deriving Repr, DecidableEq

/-- Embeds handleStripeEvent (src/server.js:199-220). On
payment_intent.succeeded: read the row for the id; if absent or
supplier_response already set, return with no effect; otherwise rebuild
cart and customer from the stored snapshot, call the supplier, attempt the
customer email, and run the terminal UPDATE. Any other event type only
logs. -/
def handleStripeEvent (env : Env) (db : DB) (event : StripeEvent) (now : Nat) :
    DB × Effects :=
  match event with
  | .paymentIntentSucceeded paymentIntentId =>
    match dbGetByPaymentIntentId db paymentIntentId with
    | none => (db, ⟨0, 0⟩)
    | some row =>
      match row.supplier_response with
      | some _ => (db, ⟨0, 0⟩)
      | none =>
        let customer : Customer :=
          { name := row.customer_name, email := row.customer_email,
            address := row.customer_address }
        let supplierResponse := placeOrderWithSupplier env
        (updateOrderTerminal db paymentIntentId supplierResponse now,
         ⟨1, customerEmailAttempts customer⟩)
  | .otherEvent _ => (db, ⟨0, 0⟩)

/-- Response of POST /webhook to the gateway: the received
acknowledgement (src/server.js:193), a 400 on a bad signature
(src/server.js:188), or the 500 of the catch branch (src/server.js:194). -/
inductive WebhookResponse where
  | received
  | signatureError (message : String)
  | serverError
deriving Repr, DecidableEq

/-- Embeds POST /webhook (src/server.js:180-195) for a
signature-accepted event: await handleStripeEvent, then answer received.
In the embedding handleStripeEvent is total, because the source catches
every supplier-dispatch and email failure inside placeOrderWithSupplier and
sendCustomerEmail and turns it into a return value, so the catch branch
that answers 500 is never reached by those failures. -/
def webhookPost (env : Env) (db : DB) (event : StripeEvent) (now : Nat) :
    WebhookResponse × DB × Effects :=
  let r := handleStripeEvent env db event now
  (.received, r.1, r.2)

/-- Response body of POST /api/create-payment-intent
(src/server.js:138-144). -/
structure PaymentIntentResponse where
  paymentIntentId : String
  total : Int
  profit : Int
  supplierShare : Int
deriving Repr, DecidableEq

/-- Embeds POST /api/create-payment-intent (src/server.js:113-146):
reject an empty cart with 400, compute total, supplier share and profit,
create the Stripe intent (its fresh id is the stripePaymentIntentId
argument), insert the draft row, and answer with the totals. The source
has no check on the sign of profit: the draft is inserted and the response
produced whatever value profit has. -/
def createPaymentIntent (db : DB) (cartItems : List CartItem)
    (customer : Customer) (stripePaymentIntentId : String)
    (freshLocalId : String) : Except (Nat × String) (PaymentIntentResponse × DB) :=
  if cartItems.isEmpty then .error (400, "cartItems required")
  else
    let total := cartTotal cartItems
    let supplierTotal := cartSupplierTotal cartItems
    let profit := total - supplierTotal
    match createDraftOrder db stripePaymentIntentId cartItems customer total
        supplierTotal profit freshLocalId with
    | .error e => .error (500, e)
    | .ok (_, db1) =>
      .ok ({ paymentIntentId := stripePaymentIntentId, total := total,
             profit := profit, supplierShare := supplierTotal }, db1)

/-- Progress of one in-flight handler through the dispatch-once sequence
shared by the place-order handler (src/server.js:158-172) and the webhook
handler (src/server.js:204-215). Each constructor is the point reached
after one atomic interaction: the SELECT plus the in-memory null check on
its snapshot, the supplier dispatch, the customer-email attempt, and the
terminal UPDATE. -/
inductive Phase where
  | atStart
  | checked
  | dispatched
  | emailed
  | finished
  | shortCircuited
deriving Repr, DecidableEq

/-- Shared state of two concurrent handler invocations for one payment id:
the store, each handler phase, and the effect counters. -/
structure RaceState where
  db : DB
  placeOrderPhase : Phase
  webhookPhase : Phase
  dispatches : Nat
  emails : Nat
deriving Repr, DecidableEq

/-- One atomic step of a single handler: read-and-check, then dispatch,
then email, then write, mirroring the statement order of
src/server.js:158-172 and src/server.js:204-215. The email counter grows
by the sendMail attempts of sendCustomerEmail for the given customer. -/
def threadStep (env : Env) (paymentIntentId : String) (customer : Customer)
    (now : Nat) (db : DB) (ph : Phase) (dispatches emails : Nat) :
    DB × Phase × Nat × Nat :=
  match ph with
  | .atStart =>
    match dbGetByPaymentIntentId db paymentIntentId with
    | none => (db, .finished, dispatches, emails)
    | some row =>
      match row.supplier_response with
      | some _ => (db, .shortCircuited, dispatches, emails)
      | none => (db, .checked, dispatches, emails)
  | .checked => (db, .dispatched, dispatches + 1, emails)
  | .dispatched => (db, .emailed, dispatches, emails + customerEmailAttempts customer)
  | .emailed =>
    (updateOrderTerminal db paymentIntentId (placeOrderWithSupplier env) now,
     .finished, dispatches, emails)
  | .finished => (db, .finished, dispatches, emails)
  | .shortCircuited => (db, .shortCircuited, dispatches, emails)

/-- Interleaving step: true advances the place-order handler (with the
request customer), false advances the webhook handler (with the customer
rebuilt from the stored row, src/server.js:209). -/
def raceStep (env : Env) (paymentIntentId : String)
    (requestCustomer rowCustomer : Customer) (now : Nat) (s : RaceState)
    (stepPlaceOrder : Bool) : RaceState :=
  if stepPlaceOrder then
    let r := threadStep env paymentIntentId requestCustomer now s.db
      s.placeOrderPhase s.dispatches s.emails
    { s with db := r.1, placeOrderPhase := r.2.1,
             dispatches := r.2.2.1, emails := r.2.2.2 }
  else
    let r := threadStep env paymentIntentId rowCustomer now s.db
      s.webhookPhase s.dispatches s.emails
    { s with db := r.1, webhookPhase := r.2.1,
             dispatches := r.2.2.1, emails := r.2.2.2 }

/-- Run the two handlers under a schedule: each list entry says which
handler performs its next atomic step. -/
def raceRun (env : Env) (paymentIntentId : String)
    (requestCustomer rowCustomer : Customer) (now : Nat) (init : RaceState)
    (schedule : List Bool) : RaceState :=
  schedule.foldl (raceStep env paymentIntentId requestCustomer rowCustomer now) init

/-- An operation on the orders table. The source writes the table in
exactly two ways: the INSERT of createDraftOrder and the terminal UPDATE of
the two handlers. -/
inductive StoreOp where
  | insertDraft (paymentIntentId : String) (cartItems : List CartItem)
      (customer : Customer) (total supplierTotal profit : Int)
      (local_order_id : String)
  | markTerminal (paymentIntentId : String) (resp : SupplierResponse) (now : Nat)

/-- Apply a store operation. A failed INSERT (UNIQUE violation) leaves the
table unchanged. -/
def applyStoreOp (db : DB) (op : StoreOp) : DB :=
  match op with
  | .insertDraft pid cart cust total supplierTotal profit lid =>
    match createDraftOrder db pid cart cust total supplierTotal profit lid with
    | .ok r => r.2
    | .error _ => db
  | .markTerminal pid resp now => updateOrderTerminal db pid resp now

/-- Row invariant of the orders table: a non-null supplier_response comes
with a terminal status and a set processed_at. -/
def SupplierResponseInv (db : DB) : Prop :=
  ∀ r ∈ db, r.supplier_response.isSome = true →
    (r.status = "processed" ∨ r.status = "failed") ∧ r.processed_at.isSome = true

/-- A JavaScript number: some q models a finite double of exact value q,
none models the non-finite values (NaN and the infinities). -/
abbrev JsNumber := Option ℚ

/-- JavaScript Math.round on a finite value: the integer nearest the
argument, halves toward positive infinity. -/
def jsMathRound (q : ℚ) : Int :=
  Rat.floor (q + 1 / 2)

/-- Embeds the price conversion of POST /api/add-product
(src/server.js:90): Math.round(price*100), applied unconditionally to
every price; a non-finite input propagates, since Math.round of NaN is
NaN. The create-payment-intent handler (src/server.js:119-124) does not
convert at all: it parseInts the raw values. Neither site implements an
integer-threshold heuristic. -/
def addProductNormalizePrice (price : JsNumber) : JsNumber :=
  price.map (fun q => ((jsMathRound (q * 100) : Int) : ℚ))

/-- Modelled from the spec wording, for comparison with the code: the
Money Normalizer heuristic of the spec treats an integer greater than 1000
as already minor units, multiplies anything else by 100 and rounds, and
returns 0 for non-finite input. No function of src/server.js computes
this. -/
def normalizeToMinorUnits (value : JsNumber) : JsNumber :=
  match value with
  | none => some 0
  | some q =>
    if q.den = 1 ∧ 1000 < q then some q
    else some ((jsMathRound (q * 100) : Int) : ℚ)

/-- The response placeOrderWithSupplier returns when neither DSERS_API_KEY
nor SUPPLIER_EMAIL is configured (src/server.js:260). -/
def noSupplierConfigured : SupplierResponse :=
  { success := false, method := none, note := none,
    error := some "No DSERS_API_KEY or SUPPLIER_EMAIL configured" }

/-- Concrete customer used by the concrete runs below. -/
def customerAda : Customer :=
  { name := "Ada", email := some "ada@example.com", address := "addr" }

/-- Concrete one-line cart: price 1999, supplierCost 800, quantity 2. -/
def cartOne : List CartItem :=
  [{ title := "Widget", price := 1999, supplierCost := 800, quantity := 2 }]

/-- Concrete cart whose supplier cost exceeds its price: profit is
negative. -/
def negativeCart : List CartItem :=
  [{ title := "LossLeader", price := 100, supplierCost := 200, quantity := 1 }]

/-- Concrete pending draft row for payment id pi_1. -/
def pendingRow : OrderRow :=
  draftOrderRow "pi_1" cartOne customerAda 3998 1600 2398 "o1"

/-- Environment with a working DSers key and a succeeded payment. -/
def envDsers : Env :=
  { DSERS_API_KEY := some "k", SUPPLIER_EMAIL := none,
    dsersCall := .ok (), supplierMailCall := .ok (), customerMailCall := .ok (),
    stripeRetrieveStatus := fun _ => "succeeded" }

/-- Environment whose gateway reports the payment as still processing. -/
def envNotSucceeded : Env :=
  { DSERS_API_KEY := some "k", SUPPLIER_EMAIL := none,
    dsersCall := .ok (), supplierMailCall := .ok (), customerMailCall := .ok (),
    stripeRetrieveStatus := fun _ => "processing" }

/-- Environment with no supplier configuration at all. -/
def envNoSupplier : Env :=
  { DSERS_API_KEY := none, SUPPLIER_EMAIL := none,
    dsersCall := .ok (), supplierMailCall := .ok (), customerMailCall := .ok (),
    stripeRetrieveStatus := fun _ => "succeeded" }

/-- Environment in which every downstream external call fails. -/
def envAllDown : Env :=
  { DSERS_API_KEY := some "k", SUPPLIER_EMAIL := some "supplier@example.com",
    dsersCall := .error "dsers unreachable",
    supplierMailCall := .error "smtp down",
    customerMailCall := .error "smtp down",
    stripeRetrieveStatus := fun _ => "succeeded" }

/-- Initial race state: one pending row for pi_1, both handlers about to
run, no effect performed yet. -/
def raceInit : RaceState :=
  { db := [pendingRow], placeOrderPhase := .atStart, webhookPhase := .atStart,
    dispatches := 0, emails := 0 }

/-- The schedule in which both handlers pass the null check before either
writes: place-order reads, webhook reads, place-order dispatches, emails
and writes, then webhook dispatches, emails and writes. -/
def racySchedule : List Bool :=
  [true, false, true, true, true, false, false, false]

/-- The fully sequential schedule: place-order runs to completion, then the
webhook handler runs. -/
def sequentialSchedule : List Bool :=
  [true, true, true, true, false, false, false, false]

/-! Helper lemmas shared by the claim theorems. -/

/-- Reading by payment id after the terminal UPDATE returns the image of
the pre-update read under the terminal field rewrite. -/
theorem terminalUpdateRow_pid (pid : String) (resp : SupplierResponse)
    (now : Nat) (r : OrderRow) :
    (terminalUpdateRow pid resp now r).payment_intent_id = r.payment_intent_id := by
  unfold terminalUpdateRow
  by_cases h : (r.payment_intent_id == pid) = true <;> simp [h]

theorem dbGet_updateOrderTerminal (db : DB) (pid : String)
    (resp : SupplierResponse) (now : Nat) :
    dbGetByPaymentIntentId (updateOrderTerminal db pid resp now) pid =
      (dbGetByPaymentIntentId db pid).map (terminalUpdateRow pid resp now) := by
  unfold dbGetByPaymentIntentId updateOrderTerminal
  rw [List.find?_map]
  have hp : ((fun r : OrderRow => r.payment_intent_id == pid) ∘ terminalUpdateRow pid resp now)
      = (fun r : OrderRow => r.payment_intent_id == pid) := by
    funext r
    simp [Function.comp, terminalUpdateRow_pid]
  rw [hp]

/-- The image of a matching row under the terminal rewrite. -/
theorem terminalUpdateRow_of_match (pid : String) (resp : SupplierResponse)
    (now : Nat) (r : OrderRow) (h : r.payment_intent_id = pid) :
    terminalUpdateRow pid resp now r =
      { r with
        supplier_response := some resp
        status := if resp.success then "processed" else "failed"
        processed_at := some now } := by
  simp [terminalUpdateRow, h]

/-- Reading by local order id right after the backfill INSERT finds the
inserted draft, provided no earlier row carries that local id. -/
theorem dbGetByLocalOrderId_append (db : DB) (row : OrderRow) (lid : String)
    (hfresh : ∀ r ∈ db, r.local_order_id ≠ lid)
    (hrow : row.local_order_id = lid) :
    dbGetByLocalOrderId (db ++ [row]) lid = some row := by
  have h1 : db.find? (fun r => r.local_order_id == lid) = none := by
    rw [List.find?_eq_none]
    intro r hr
    simpa using hfresh r hr
  simp [dbGetByLocalOrderId, List.find?_append, h1, List.find?_cons, hrow]

/-- Reading by payment id right after an INSERT into a table that had no
row for that id finds the inserted draft. -/
theorem dbGetByPaymentIntentId_append (db : DB) (row : OrderRow) (pid : String)
    (habs : dbGetByPaymentIntentId db pid = none)
    (hrow : row.payment_intent_id = pid) :
    dbGetByPaymentIntentId (db ++ [row]) pid = some row := by
  unfold dbGetByPaymentIntentId at habs ⊢
  rw [List.find?_append, habs]
  simp [List.find?_cons, hrow]

/-- The short-circuit branch of the place-order tail: a row whose
supplier_response is set is answered from the store with no side effect. -/
theorem placeOrderCore_short (env : Env) (db : DB) (customer : Customer)
    (pid : String) (saved : OrderRow) (now : Nat) (stored : SupplierResponse)
    (h : saved.supplier_response = some stored) :
    placeOrderCore env db customer pid saved now =
      (.alreadyProcessed stored, db, ⟨0, 0⟩) := by
  simp [placeOrderCore, h]

/-- The dispatch branch of the place-order tail: a pending row triggers one
supplier dispatch, one customer-email attempt, and the terminal UPDATE. -/
theorem placeOrderCore_dispatch (env : Env) (db : DB) (customer : Customer)
    (pid : String) (saved : OrderRow) (now : Nat)
    (h : saved.supplier_response = none) :
    placeOrderCore env db customer pid saved now =
      (.placed (placeOrderWithSupplier env),
       updateOrderTerminal db pid (placeOrderWithSupplier env) now,
       ⟨1, customerEmailAttempts customer⟩) := by
  simp [placeOrderCore, h]

/-- With a succeeded payment and a stored row, the place-order handler is
its dispatch-or-short-circuit tail on that row. -/
theorem placeOrder_of_found (env : Env) (db : DB) (cartItems : List CartItem)
    (customer : Customer) (pid lid : String) (now : Nat) (saved : OrderRow)
    (hst : env.stripeRetrieveStatus pid = "succeeded")
    (hdb : dbGetByPaymentIntentId db pid = some saved) :
    placeOrder env db cartItems customer pid lid now =
      placeOrderCore env db customer pid saved now := by
  simp [placeOrder, hst, hdb]

/-- With a succeeded payment and no stored row, the place-order handler
backfills a draft from the request and runs its tail on the fresh draft. -/
theorem placeOrder_backfill (env : Env) (db : DB) (cartItems : List CartItem)
    (customer : Customer) (pid lid : String) (now : Nat)
    (hst : env.stripeRetrieveStatus pid = "succeeded")
    (hdb : dbGetByPaymentIntentId db pid = none)
    (hfresh : ∀ r ∈ db, r.local_order_id ≠ lid) :
    placeOrder env db cartItems customer pid lid now =
      placeOrderCore env
        (db ++ [draftOrderRow pid cartItems customer (cartTotal cartItems)
          (cartSupplierTotal cartItems)
          (cartTotal cartItems - cartSupplierTotal cartItems) lid])
        customer pid
        (draftOrderRow pid cartItems customer (cartTotal cartItems)
          (cartSupplierTotal cartItems)
          (cartTotal cartItems - cartSupplierTotal cartItems) lid) now := by
  have hins : (dbGetByPaymentIntentId db pid).isSome = false := by simp [hdb]
  have hloc := dbGetByLocalOrderId_append db
    (draftOrderRow pid cartItems customer (cartTotal cartItems)
      (cartSupplierTotal cartItems)
      (cartTotal cartItems - cartSupplierTotal cartItems) lid) lid hfresh rfl
  simp [placeOrder, hst, hdb, createDraftOrder, hins, hloc]

/-! Claim theorems. -/

/-- C1: the claim states that for a given paymentId, across any
interleaving of the place-order handler and the webhook handler, the
supplier is dispatched at most once and the customer emailed at most once.
The code violates it: in the interleaving where both handlers pass the
supplier_response null check before either runs the terminal UPDATE, both
dispatch and both email. This theorem exhibits that run on a concrete
pending order: the racy schedule performs two dispatches and two emails,
while the fully sequential schedule performs exactly one of each. -/
theorem race_double_dispatch :
    (raceRun envDsers "pi_1" customerAda customerAda 7 raceInit
        racySchedule).dispatches = 2 ∧
    (raceRun envDsers "pi_1" customerAda customerAda 7 raceInit
        racySchedule).emails = 2 ∧
    (raceRun envDsers "pi_1" customerAda customerAda 7 raceInit
        sequentialSchedule).dispatches = 1 ∧
    (raceRun envDsers "pi_1" customerAda customerAda 7 raceInit
        sequentialSchedule).emails = 1 := by
  decide

/-- C3: claimed draft-insert idempotency. What the code actually does:
calling createDraftOrder twice with the same paymentId keeps exactly one
row, with the first call values retained, but the second call raises the
UNIQUE-constraint error instead of returning quietly, because the INSERT
at src/server.js:335 has no OR IGNORE. -/
theorem create_draft_order_second_call_errors (db : DB) (pid : String)
    (cart1 cart2 : List CartItem) (cust1 cust2 : Customer)
    (t1 s1 p1 t2 s2 p2 : Int) (lid1 lid2 : String)
    (habs : dbGetByPaymentIntentId db pid = none) :
    createDraftOrder db pid cart1 cust1 t1 s1 p1 lid1 =
      .ok (lid1, db ++ [draftOrderRow pid cart1 cust1 t1 s1 p1 lid1]) ∧
    createDraftOrder (db ++ [draftOrderRow pid cart1 cust1 t1 s1 p1 lid1])
        pid cart2 cust2 t2 s2 p2 lid2 =
      .error "SQLITE_CONSTRAINT: UNIQUE constraint failed: orders.payment_intent_id" ∧
    dbGetByPaymentIntentId (db ++ [draftOrderRow pid cart1 cust1 t1 s1 p1 lid1]) pid =
      some (draftOrderRow pid cart1 cust1 t1 s1 p1 lid1) := by
  have hins : (dbGetByPaymentIntentId db pid).isSome = false := by simp [habs]
  have hfound := dbGetByPaymentIntentId_append db
    (draftOrderRow pid cart1 cust1 t1 s1 p1 lid1) pid habs rfl
  refine ⟨by simp [createDraftOrder, hins], ?_, hfound⟩
  simp [createDraftOrder, hfound]

/-- C3 witness. -/
theorem create_draft_order_second_call_errors_witness :
    dbGetByPaymentIntentId [] "pi_1" = none ∧
    (createDraftOrder [] "pi_1" cartOne customerAda 3998 1600 2398 "o1" =
      .ok ("o1", [draftOrderRow "pi_1" cartOne customerAda 3998 1600 2398 "o1"]) ∧
    createDraftOrder [draftOrderRow "pi_1" cartOne customerAda 3998 1600 2398 "o1"]
        "pi_1" negativeCart customerAda 100 200 (-100) "o2" =
      .error "SQLITE_CONSTRAINT: UNIQUE constraint failed: orders.payment_intent_id" ∧
    dbGetByPaymentIntentId [draftOrderRow "pi_1" cartOne customerAda 3998 1600 2398 "o1"] "pi_1" =
      some (draftOrderRow "pi_1" cartOne customerAda 3998 1600 2398 "o1")) :=
  ⟨rfl, create_draft_order_second_call_errors [] "pi_1" cartOne negativeCart
    customerAda customerAda 3998 1600 2398 100 200 (-100) "o1" "o2" rfl⟩

/-- Preservation of the supplier-response invariant by a single store
operation. -/
theorem applyStoreOp_preserves (db : DB) (op : StoreOp)
    (h : SupplierResponseInv db) : SupplierResponseInv (applyStoreOp db op) := by
  cases op with
  | insertDraft pid cart cust total sup profit lid =>
    intro r hr hsome
    simp only [applyStoreOp, createDraftOrder] at hr
    by_cases hc : (dbGetByPaymentIntentId db pid).isSome = true
    · rw [if_pos hc] at hr
      exact h r hr hsome
    · rw [if_neg hc] at hr
      rcases List.mem_append.mp hr with hmem | hmem
      · exact h r hmem hsome
      · rcases List.mem_singleton.mp hmem with rfl
        simp [draftOrderRow] at hsome
  | markTerminal pid resp now =>
    intro r hr hsome
    simp only [applyStoreOp, updateOrderTerminal] at hr
    rcases List.mem_map.mp hr with ⟨r0, hr0, rfl⟩
    unfold terminalUpdateRow at hsome ⊢
    by_cases hm : (r0.payment_intent_id == pid) = true
    · rw [if_pos hm]
      refine ⟨?_, rfl⟩
      by_cases hs : resp.success = true <;> simp [hs]
    · rw [if_neg hm] at hsome ⊢
      exact h r0 hr0 hsome

/-- C4: every sequence of operations on the order store preserves the
invariant that a row with a non-null supplier_response has status
processed or failed and a set processed_at. The terminal transition is
one UPDATE statement writing the three columns together (embedded as the
single-step terminalUpdateRow), so no intermediate state with
supplier_response set but status or processed_at unset ever exists in the
table. -/
theorem supplier_response_invariant_preserved (db : DB) (ops : List StoreOp)
    (h : SupplierResponseInv db) :
    SupplierResponseInv (ops.foldl applyStoreOp db) := by
  induction ops generalizing db with
  | nil => exact h
  | cons op rest ih => exact ih _ (applyStoreOp_preserves db op h)

/-- C4 witness. -/
theorem supplier_response_invariant_preserved_witness :
    SupplierResponseInv [] ∧
    SupplierResponseInv
      ([StoreOp.insertDraft "pi_1" cartOne customerAda 3998 1600 2398 "o1",
        StoreOp.markTerminal "pi_1" noSupplierConfigured 7].foldl applyStoreOp []) :=
  ⟨by simp [SupplierResponseInv],
   supplier_response_invariant_preserved []
     [StoreOp.insertDraft "pi_1" cartOne customerAda 3998 1600 2398 "o1",
      StoreOp.markTerminal "pi_1" noSupplierConfigured 7]
     (by simp [SupplierResponseInv])⟩

/-- C6: a confirmation request whose payment the gateway does not report
as succeeded is answered with the 400 Payment-not-succeeded error, the
store is unchanged (so any stored supplier_response stays null), and no
supplier dispatch or customer email happens. -/
theorem place_order_payment_not_confirmed (env : Env) (db : DB)
    (cartItems : List CartItem) (customer : Customer) (pid lid : String)
    (now : Nat) (h : env.stripeRetrieveStatus pid ≠ "succeeded") :
    placeOrder env db cartItems customer pid lid now =
      (.httpError 400 "Payment not succeeded", db, ⟨0, 0⟩) := by
  simp [placeOrder, h]

/-- C6 witness. -/
theorem place_order_payment_not_confirmed_witness :
    envNotSucceeded.stripeRetrieveStatus "pi_1" ≠ "succeeded" ∧
    placeOrder envNotSucceeded [pendingRow] cartOne customerAda "pi_1" "o2" 7 =
      (.httpError 400 "Payment not succeeded", [pendingRow], ⟨0, 0⟩) :=
  ⟨by decide,
   place_order_payment_not_confirmed envNotSucceeded [pendingRow] cartOne
     customerAda "pi_1" "o2" 7 (by decide)⟩

/-- C7: a payment_intent.succeeded webhook for a payment id with no stored
row is a no-op: the table is unchanged, no dispatch and no email happens,
and the endpoint still answers the received acknowledgement rather than an
error. -/
theorem webhook_unknown_payment_noop (env : Env) (db : DB) (pid : String)
    (now : Nat) (h : dbGetByPaymentIntentId db pid = none) :
    handleStripeEvent env db (.paymentIntentSucceeded pid) now = (db, ⟨0, 0⟩) ∧
    webhookPost env db (.paymentIntentSucceeded pid) now = (.received, db, ⟨0, 0⟩) := by
  have h1 : handleStripeEvent env db (.paymentIntentSucceeded pid) now = (db, ⟨0, 0⟩) := by
    simp [handleStripeEvent, h]
  exact ⟨h1, by simp [webhookPost, h1]⟩

/-- C7 witness. -/
theorem webhook_unknown_payment_noop_witness :
    dbGetByPaymentIntentId [] "pi_unknown" = none ∧
    (handleStripeEvent envDsers [] (.paymentIntentSucceeded "pi_unknown") 7 = ([], ⟨0, 0⟩) ∧
     webhookPost envDsers [] (.paymentIntentSucceeded "pi_unknown") 7 = (.received, [], ⟨0, 0⟩)) :=
  ⟨rfl, webhook_unknown_payment_noop envDsers [] "pi_unknown" 7 rfl⟩

/-- C9: the webhook endpoint acknowledges receipt to the gateway even when
every downstream call fails: supplier-dispatch and email failures are
caught inside placeOrderWithSupplier and sendCustomerEmail and returned as
values, so handleStripeEvent completes and the endpoint answers received,
never an error response, whatever the event and store contents. -/
theorem webhook_acknowledges_despite_failures (env : Env) (db : DB)
    (event : StripeEvent) (now : Nat) (e1 e2 e3 : String)
    (h1 : env.dsersCall = .error e1)
    (h2 : env.supplierMailCall = .error e2)
    (h3 : env.customerMailCall = .error e3) :
    (webhookPost env db event now).1 = .received := rfl

/-- C9 witness. -/
theorem webhook_acknowledges_despite_failures_witness :
    (envAllDown.dsersCall = .error "dsers unreachable" ∧
     envAllDown.supplierMailCall = .error "smtp down" ∧
     envAllDown.customerMailCall = .error "smtp down") ∧
    (webhookPost envAllDown [pendingRow] (.paymentIntentSucceeded "pi_1") 7).1 = .received :=
  ⟨⟨rfl, rfl, rfl⟩,
   webhook_acknowledges_despite_failures envAllDown [pendingRow]
     (.paymentIntentSucceeded "pi_1") 7 "dsers unreachable" "smtp down" "smtp down"
     rfl rfl rfl⟩

/-- C2: with the gateway reporting the payment as succeeded, two
sequential calls of the place-order handler perform exactly one supplier
dispatch and one customer email in total: the first call dispatches,
emails and persists, the second call short-circuits on the stored
supplier_response, changes nothing, performs no side effect, and returns
the supplierResponse stored by the first call. -/
theorem place_order_sequential_idempotent (env : Env) (db : DB)
    (cartItems : List CartItem) (customer : Customer) (pid lid1 lid2 : String)
    (t1 t2 : Nat)
    (hst : env.stripeRetrieveStatus pid = "succeeded")
    (hpending : ∀ r ∈ db, r.payment_intent_id = pid → r.supplier_response = none)
    (hfresh : ∀ r ∈ db, r.local_order_id ≠ lid1)
    (hemail : customer.email.isSome = true) :
    (placeOrder env db cartItems customer pid lid1 t1).1 =
      .placed (placeOrderWithSupplier env) ∧
    (placeOrder env db cartItems customer pid lid1 t1).2.2 = ⟨1, 1⟩ ∧
    placeOrder env (placeOrder env db cartItems customer pid lid1 t1).2.1
        cartItems customer pid lid2 t2 =
      (.alreadyProcessed (placeOrderWithSupplier env),
       (placeOrder env db cartItems customer pid lid1 t1).2.1, ⟨0, 0⟩) := by
  have hcea : customerEmailAttempts customer = 1 := by
    simp [customerEmailAttempts, hemail]
  have hshape : ∃ dbMid saved,
      dbGetByPaymentIntentId dbMid pid = some saved ∧
      saved.supplier_response = none ∧
      placeOrder env db cartItems customer pid lid1 t1 =
        (.placed (placeOrderWithSupplier env),
         updateOrderTerminal dbMid pid (placeOrderWithSupplier env) t1,
         ⟨1, customerEmailAttempts customer⟩) := by
    cases hdb : dbGetByPaymentIntentId db pid with
    | some saved =>
      have hmem := List.mem_of_find?_eq_some hdb
      have hpidr : saved.payment_intent_id = pid := by
        simpa using List.find?_some hdb
      have hnone : saved.supplier_response = none := hpending saved hmem hpidr
      exact ⟨db, saved, hdb, hnone, by
        rw [placeOrder_of_found env db cartItems customer pid lid1 t1 saved hst hdb,
            placeOrderCore_dispatch env db customer pid saved t1 hnone]⟩
    | none =>
      refine ⟨db ++ [draftOrderRow pid cartItems customer (cartTotal cartItems)
          (cartSupplierTotal cartItems)
          (cartTotal cartItems - cartSupplierTotal cartItems) lid1],
        draftOrderRow pid cartItems customer (cartTotal cartItems)
          (cartSupplierTotal cartItems)
          (cartTotal cartItems - cartSupplierTotal cartItems) lid1,
        dbGetByPaymentIntentId_append db _ pid hdb rfl, rfl, ?_⟩
      rw [placeOrder_backfill env db cartItems customer pid lid1 t1 hst hdb hfresh,
          placeOrderCore_dispatch env _ customer pid _ t1 rfl]
  obtain ⟨dbMid, saved, hmid, hnone, heq⟩ := hshape
  have hpids : saved.payment_intent_id = pid := by
    simpa using List.find?_some hmid
  have hdb1 : (placeOrder env db cartItems customer pid lid1 t1).2.1 =
      updateOrderTerminal dbMid pid (placeOrderWithSupplier env) t1 := by
    rw [heq]
  have hget2 : dbGetByPaymentIntentId
      (updateOrderTerminal dbMid pid (placeOrderWithSupplier env) t1) pid =
      some (terminalUpdateRow pid (placeOrderWithSupplier env) t1 saved) := by
    rw [dbGet_updateOrderTerminal, hmid]
    rfl
  have hstored : (terminalUpdateRow pid (placeOrderWithSupplier env) t1 saved).supplier_response =
      some (placeOrderWithSupplier env) := by
    rw [terminalUpdateRow_of_match pid (placeOrderWithSupplier env) t1 saved hpids]
  refine ⟨by rw [heq], by rw [heq, hcea], ?_⟩
  rw [hdb1,
    placeOrder_of_found env _ cartItems customer pid lid2 t2 _ hst hget2,
    placeOrderCore_short env _ customer pid _ t2 (placeOrderWithSupplier env) hstored]

/-- C2 witness. -/
theorem place_order_sequential_idempotent_witness :
    (envDsers.stripeRetrieveStatus "pi_1" = "succeeded" ∧
     (∀ r ∈ ([] : DB), r.payment_intent_id = "pi_1" → r.supplier_response = none) ∧
     (∀ r ∈ ([] : DB), r.local_order_id ≠ "o1") ∧
     customerAda.email.isSome = true) ∧
    ((placeOrder envDsers [] cartOne customerAda "pi_1" "o1" 5).1 =
       .placed (placeOrderWithSupplier envDsers) ∧
     (placeOrder envDsers [] cartOne customerAda "pi_1" "o1" 5).2.2 = ⟨1, 1⟩ ∧
     placeOrder envDsers (placeOrder envDsers [] cartOne customerAda "pi_1" "o1" 5).2.1
         cartOne customerAda "pi_1" "o2" 9 =
       (.alreadyProcessed (placeOrderWithSupplier envDsers),
        (placeOrder envDsers [] cartOne customerAda "pi_1" "o1" 5).2.1, ⟨0, 0⟩)) :=
  ⟨⟨rfl, by simp, by simp, rfl⟩,
   place_order_sequential_idempotent envDsers [] cartOne customerAda "pi_1" "o1" "o2"
     5 9 rfl (by simp) (by simp) rfl⟩

/-- C5 counterexample: the claim says a request with negative computed
profit is rejected with no row persisted. The code has no such check: for
the one-line cart with price 100 and supplierCost 200, the
create-payment-intent handler answers ok with profit -100 and persists the
draft row with profit_cents -100. -/
theorem negative_profit_persisted :
    createPaymentIntent [] negativeCart customerAda "pi_neg" "o9" =
      .ok ({ paymentIntentId := "pi_neg", total := 100, profit := -100,
             supplierShare := 200 },
           [draftOrderRow "pi_neg" negativeCart customerAda 100 200 (-100) "o9"]) ∧
    (draftOrderRow "pi_neg" negativeCart customerAda 100 200 (-100) "o9").profit_cents < 0 :=
  ⟨rfl, by decide⟩

/-- C5 amended: the totals identity holds — the handler answers with
total = Σ price·quantity, supplierShare = Σ supplierCost·quantity and
profit = total − supplierShare — but a negative profit is not rejected:
whatever its sign, the draft row is persisted carrying exactly these
values. -/
theorem create_payment_intent_profit_equation (db : DB)
    (cartItems : List CartItem) (customer : Customer) (pid lid : String)
    (hne : cartItems ≠ [])
    (habs : dbGetByPaymentIntentId db pid = none) :
    createPaymentIntent db cartItems customer pid lid =
      .ok ({ paymentIntentId := pid, total := cartTotal cartItems,
             profit := cartTotal cartItems - cartSupplierTotal cartItems,
             supplierShare := cartSupplierTotal cartItems },
           db ++ [draftOrderRow pid cartItems customer (cartTotal cartItems)
             (cartSupplierTotal cartItems)
             (cartTotal cartItems - cartSupplierTotal cartItems) lid]) ∧
    dbGetByPaymentIntentId
        (db ++ [draftOrderRow pid cartItems customer (cartTotal cartItems)
          (cartSupplierTotal cartItems)
          (cartTotal cartItems - cartSupplierTotal cartItems) lid]) pid =
      some (draftOrderRow pid cartItems customer (cartTotal cartItems)
        (cartSupplierTotal cartItems)
        (cartTotal cartItems - cartSupplierTotal cartItems) lid) := by
  have hins : (dbGetByPaymentIntentId db pid).isSome = false := by simp [habs]
  have hempty : cartItems.isEmpty = false := by
    cases cartItems with
    | nil => exact absurd rfl hne
    | cons a l => rfl
  refine ⟨?_, dbGetByPaymentIntentId_append db _ pid habs rfl⟩
  simp [createPaymentIntent, hempty, createDraftOrder, hins]

/-- C5 witness for the amended theorem. -/
theorem create_payment_intent_profit_equation_witness :
    (negativeCart ≠ [] ∧ dbGetByPaymentIntentId [] "pi_neg" = none) ∧
    (createPaymentIntent [] negativeCart customerAda "pi_neg" "o9" =
      .ok ({ paymentIntentId := "pi_neg", total := cartTotal negativeCart,
             profit := cartTotal negativeCart - cartSupplierTotal negativeCart,
             supplierShare := cartSupplierTotal negativeCart },
           [] ++ [draftOrderRow "pi_neg" negativeCart customerAda (cartTotal negativeCart)
             (cartSupplierTotal negativeCart)
             (cartTotal negativeCart - cartSupplierTotal negativeCart) "o9"]) ∧
     dbGetByPaymentIntentId
        ([] ++ [draftOrderRow "pi_neg" negativeCart customerAda (cartTotal negativeCart)
          (cartSupplierTotal negativeCart)
          (cartTotal negativeCart - cartSupplierTotal negativeCart) "o9"]) "pi_neg" =
      some (draftOrderRow "pi_neg" negativeCart customerAda (cartTotal negativeCart)
        (cartSupplierTotal negativeCart)
        (cartTotal negativeCart - cartSupplierTotal negativeCart) "o9")) :=
  ⟨⟨by decide, rfl⟩,
   create_payment_intent_profit_equation [] negativeCart customerAda "pi_neg" "o9"
     (by decide) rfl⟩

/-- C10: with neither DSERS_API_KEY nor SUPPLIER_EMAIL configured,
placeOrderWithSupplier returns the success-false no-configuration response
without contacting any external system, and the place-order handler run on
a pending row persists exactly that response with terminal status failed
and a set processed_at. -/
theorem unconfigured_supplier_marks_failed (env : Env) (db : DB)
    (cartItems : List CartItem) (customer : Customer) (pid lid : String)
    (now : Nat) (saved : OrderRow)
    (hk : env.DSERS_API_KEY = none)
    (he : env.SUPPLIER_EMAIL = none)
    (hst : env.stripeRetrieveStatus pid = "succeeded")
    (hdb : dbGetByPaymentIntentId db pid = some saved)
    (hnone : saved.supplier_response = none) :
    placeOrderWithSupplier env = noSupplierConfigured ∧
    supplierExternalContacts env = 0 ∧
    placeOrder env db cartItems customer pid lid now =
      (.placed noSupplierConfigured,
       updateOrderTerminal db pid noSupplierConfigured now,
       ⟨1, customerEmailAttempts customer⟩) ∧
    dbGetByPaymentIntentId
        (updateOrderTerminal db pid noSupplierConfigured now) pid =
      some { saved with
             supplier_response := some noSupplierConfigured
             status := "failed"
             processed_at := some now } := by
  have hresp : placeOrderWithSupplier env = noSupplierConfigured := by
    simp [placeOrderWithSupplier, supplierEmailBranch, hk, he, noSupplierConfigured]
  have hc : supplierExternalContacts env = 0 := by
    simp [supplierExternalContacts, hk, he]
  have hpids : saved.payment_intent_id = pid := by
    simpa using List.find?_some hdb
  refine ⟨hresp, hc, ?_, ?_⟩
  · rw [placeOrder_of_found env db cartItems customer pid lid now saved hst hdb,
        placeOrderCore_dispatch env db customer pid saved now hnone, hresp]
  · rw [dbGet_updateOrderTerminal, hdb]
    simp only [Option.map]
    rw [terminalUpdateRow_of_match pid noSupplierConfigured now saved hpids]
    simp [noSupplierConfigured]

/-- C10 witness. -/
theorem unconfigured_supplier_marks_failed_witness :
    (envNoSupplier.DSERS_API_KEY = none ∧
     envNoSupplier.SUPPLIER_EMAIL = none ∧
     envNoSupplier.stripeRetrieveStatus "pi_1" = "succeeded" ∧
     dbGetByPaymentIntentId [pendingRow] "pi_1" = some pendingRow ∧
     pendingRow.supplier_response = none) ∧
    (placeOrderWithSupplier envNoSupplier = noSupplierConfigured ∧
     supplierExternalContacts envNoSupplier = 0 ∧
     placeOrder envNoSupplier [pendingRow] cartOne customerAda "pi_1" "o2" 7 =
       (.placed noSupplierConfigured,
        updateOrderTerminal [pendingRow] "pi_1" noSupplierConfigured 7,
        ⟨1, customerEmailAttempts customerAda⟩) ∧
     dbGetByPaymentIntentId
         (updateOrderTerminal [pendingRow] "pi_1" noSupplierConfigured 7) "pi_1" =
       some { pendingRow with
              supplier_response := some noSupplierConfigured
              status := "failed"
              processed_at := some 7 }) :=
  ⟨⟨rfl, rfl, rfl, by decide, rfl⟩,
   unconfigured_supplier_marks_failed envNoSupplier [pendingRow] cartOne customerAda
     "pi_1" "o2" 7 pendingRow rfl rfl rfl (by decide) rfl⟩

/-- C8 counterexample: the claimed heuristic values fail on the code. The
add-product conversion multiplies by 100 and rounds unconditionally, so
1999 maps to 199900, not 1999, and a non-finite input propagates as
non-finite instead of becoming 0. -/
theorem normalize_no_threshold_counterexample :
    addProductNormalizePrice (some 1999) ≠ some 1999 ∧
    addProductNormalizePrice none ≠ some 0 := by
  have h : addProductNormalizePrice (some 1999) = some 199900 := by
    simp only [addProductNormalizePrice, jsMathRound, Option.map]
    norm_num [Rat.floor]
  constructor
  · rw [h]
    intro hc
    rw [Option.some.injEq] at hc
    norm_num at hc
  · simp [addProductNormalizePrice]

/-- C8 amended: the only money conversion in the code is the add-product
one, Math.round(price·100) applied unconditionally, so 19.99 maps to 1999
as claimed, but 1999 maps to 199900 and non-finite input stays non-finite.
The spec-worded threshold heuristic normalizeToMinorUnits disagrees with
the code exactly there: it fixes 1999 and sends non-finite input to 0. -/
theorem add_product_normalize_values :
    addProductNormalizePrice (some (1999 / 100)) = some 1999 ∧
    addProductNormalizePrice (some 1999) = some 199900 ∧
    addProductNormalizePrice none = none ∧
    normalizeToMinorUnits (some (1999 / 100)) = some 1999 ∧
    normalizeToMinorUnits (some 1999) = some 1999 ∧
    normalizeToMinorUnits none = some 0 := by
  have hnb : ¬ (((1999 : ℚ) / 100).den = 1 ∧ 1000 < (1999 : ℚ) / 100) := by
    rintro ⟨-, hlt⟩
    norm_num at hlt
  refine ⟨?_, ?_, rfl, ?_, by decide, by decide⟩
  · simp only [addProductNormalizePrice, jsMathRound, Option.map]
    norm_num [Rat.floor]
  · simp only [addProductNormalizePrice, jsMathRound, Option.map]
    norm_num [Rat.floor]
  · simp only [normalizeToMinorUnits]
    rw [if_neg hnb]
    simp only [jsMathRound]
    norm_num [Rat.floor]

end Dropship
